import Mathlib

/-!
Verification development for the `tournevent/logistic` carrier-abstraction
gateway.  Go source is shallowly embedded: pure translation/conversion
functions become Lean functions, the registry fan-out becomes a fold over
the registered carriers (one linearization of the concurrent accumulation;
the counting properties proved about it are permutation-invariant), Go
`float64` money amounts become `Rat`, `time.Time` values become abstract
integer ticks supplied explicitly where Go calls `time.Now()`, and Go
errors become an explicit inductive `GoErr` mirroring the repository's
error values.
-/

namespace Logistic

/-! ## Domain model (`pkg/shipper`, models file) -/

/-- `shipper.Money`: amount (Go `float64`, embedded as `Rat`) plus ISO
currency code. -/
structure Money where
  amount : Rat
  currency : String
  deriving Repr, DecidableEq

/-- `shipper.Address` from the domain model. -/
structure Address where
  name : String := ""
  company : String := ""
  line1 : String := ""
  line2 : String := ""
  city : String := ""
  provinceCode : String := ""
  postalCode : String := ""
  countryCode : String := ""
  phone : String := ""
  email : String := ""
  instructions : String := ""
  isResidential : Bool := false
  deriving Repr, DecidableEq

/-- `shipper.Package`.  Unit fields are the Go string-typed enums
(`"cm"`, `"in"`, `"kg"`, `"lb"`, package types) carried as strings,
exactly as in the source. -/
structure Package where
  id : String := ""
  length : Rat := 0
  width : Rat := 0
  height : Rat := 0
  dimensionUnit : String := ""
  weight : Rat := 0
  weightUnit : String := ""
  packageType : String := ""
  description : String := ""
  declaredValue : Rat := 0
  currency : String := ""
  deriving Repr, DecidableEq

/-- Go constant `shipper.DimensionCM`. -/
def DimensionCM : String := "cm"

/-- Go constant `shipper.DimensionIN`. -/
def DimensionIN : String := "in"

/-- Go constant `shipper.WeightKG`. -/
def WeightKG : String := "kg"

/-- Go constant `shipper.WeightLB`. -/
def WeightLB : String := "lb"

/-- Go constant `shipper.PackageBox`. -/
def PackageBox : String := "box"

/-- `shipper.RateOption`.  Timestamps (`EstimatedDelivery`, `ExpiresAt`)
are abstract ticks (`Int`); a carrier date string whose `time.Parse`
result is only stored, never inspected, is embedded by the injective code
`strTicks` declared below. -/
structure RateOption where
  rateID : String
  carrier : String
  serviceCode : String
  serviceName : String
  serviceType : String
  baseRate : Money
  fuelSurcharge : Money
  taxes : Money
  totalPrice : Money
  transitDays : Int
  estimatedDelivery : Option Int
  expiresAt : Int
  signatureRequired : Bool := false
  guaranteed : Bool := false
  deriving Repr, DecidableEq

/-- `shipper.ShippingOptions` (only the fields the embedded operations
read). -/
structure ShippingOptions where
  carriers : List String := []
  signatureRequired : Bool := false
  deriving Repr, DecidableEq

/-- `shipper.QuoteRequest`. -/
structure QuoteRequest where
  shipperID : String := ""
  origin : Address := {}
  destination : Address := {}
  packages : List Package := []
  options : ShippingOptions := {}
  deriving Repr, DecidableEq

/-- `shipper.QuoteResponse`. -/
structure QuoteResponse where
  quoteID : String
  rates : List RateOption
  expiresAt : Int
  deriving Repr, DecidableEq

/-! ## Error taxonomy (`pkg/shipper`, errors file)

Go errors are embedded as an inductive.  `sentinel` covers the
`errors.New` package-level sentinel values (each has a distinct message in
the source, so message equality coincides with Go's pointer identity);
`shipperE` is `*shipper.ShipperError` with its `Cause` chain; `apiE`
covers the adapter-local `APIError` types; `wrapped` is
`fmt.Errorf("%s: %w", name, err)` as used by the registry fan-out. -/
inductive GoErr where
  | sentinel (msg : String)
  | shipperE (carrier code msg : String) (statusCode : Int) (retryable : Bool)
      (cause : Option GoErr)
  | apiE (code msg : String)
  | wrapped (pre : String) (inner : GoErr)
  deriving Repr

/-- Sentinel `shipper.ErrCarrierNotFound`. -/
def ErrCarrierNotFound : GoErr := .sentinel "carrier not found"

/-- `(*ShipperError).Is`: the target must itself be a `*ShipperError`,
and then only the error codes are compared. -/
def shipperErrIs (code : String) (target : GoErr) : Bool :=
  match target with
  | .shipperE _ tcode _ _ _ _ => code == tcode
  | _ => false

/-- One step of Go `errors.Is` matching: direct comparability (pointer
identity, which for the repository's distinct-message sentinels is message
equality) or the error's own `Is` method (`ShipperError.Is` is the only
`Is` method in the repository). -/
def errIsStep (e target : GoErr) : Bool :=
  match e, target with
  | .sentinel m, .sentinel m' => m == m'
  | .shipperE _ code _ _ _ _, _ => shipperErrIs code target
  | _, _ => false

/-- `Unwrap` as Go `errors.Is` sees it: `ShipperError.Unwrap` returns the
cause, and `fmt.Errorf("%s: %w", ...)` wrapping unwraps to the wrapped
error. -/
def unwrapE : GoErr → Option GoErr
  | .shipperE _ _ _ _ _ cause => cause
  | .wrapped _ inner => some inner
  | _ => none

/-- Go `errors.Is` over the embedded error values: try a direct match at
each link of the `Unwrap` chain (the cases below are exactly
`unwrapE`, spelled out for structural recursion). -/
def errorsIs (e target : GoErr) : Bool :=
  errIsStep e target ||
    match e with
    | .shipperE _ _ _ _ _ (some inner) => errorsIs inner target
    | .wrapped _ inner => errorsIs inner target
    | _ => false

/-! ## Registry (`pkg/shipper/registry.go`) -/

/-- A registered carrier as the fan-out sees it: its stable `Name()` and
its `GetQuote` behaviour, abstracted as a function from the request to a
result or error. -/
structure ShipperImpl where
  name : String
  getQuote : QuoteRequest → Except GoErr QuoteResponse

/-- The contribution of one carrier's task to the shared results list:
its response when `GetQuote` succeeds. -/
def okPart (req : QuoteRequest) (s : ShipperImpl) : Option QuoteResponse :=
  match s.getQuote req with
  | .ok resp => some resp
  | .error _ => none

/-- The contribution of one carrier's task to the shared errors list:
its error wrapped as `fmt.Errorf("%s: %w", s.Name(), err)` when
`GetQuote` fails. -/
def errPart (req : QuoteRequest) (s : ShipperImpl) : Option GoErr :=
  match s.getQuote req with
  | .ok _ => none
  | .error e => some (.wrapped s.name e)

/-- `Registry.GetAllQuotes`: if no carriers are registered, no results and
a single `ErrCarrierNotFound`; otherwise one task per carrier, each
success appended to the results, each failure appended to the errors.
The concurrent accumulation is modelled by its left-to-right
linearization. -/
def GetAllQuotes (shippers : List ShipperImpl) (req : QuoteRequest) :
    List QuoteResponse × List GoErr :=
  match shippers with
  | [] => ([], [ErrCarrierNotFound])
  | _ => (shippers.filterMap (okPart req), shippers.filterMap (errPart req))

/-- Whether a carrier's `GetQuote` call succeeds on `req`. -/
def quoteOk (req : QuoteRequest) (s : ShipperImpl) : Bool :=
  match s.getQuote req with
  | .ok _ => true
  | .error _ => false

theorem length_filterMap_okPart (req : QuoteRequest) :
    ∀ ss : List ShipperImpl,
      (ss.filterMap (okPart req)).length = (ss.filter (quoteOk req)).length := by
  intro ss
  induction ss with
  | nil => rfl
  | cons s rest ih =>
    rw [List.filterMap_cons, List.filter_cons]
    cases hq : s.getQuote req with
    | ok resp => simp [okPart, quoteOk, hq, ih]
    | error e => simp [okPart, quoteOk, hq, ih]

theorem length_filterMap_errPart (req : QuoteRequest) :
    ∀ ss : List ShipperImpl,
      (ss.filterMap (errPart req)).length
        = (ss.filter (fun s => !(quoteOk req s))).length := by
  intro ss
  induction ss with
  | nil => rfl
  | cons s rest ih =>
    rw [List.filterMap_cons, List.filter_cons]
    cases hq : s.getQuote req with
    | ok resp => simp [errPart, quoteOk, hq, ih]
    | error e => simp [errPart, quoteOk, hq, ih]

theorem filter_success_add_failure (req : QuoteRequest) :
    ∀ ss : List ShipperImpl,
      (ss.filter (quoteOk req)).length
          + (ss.filter (fun s => !(quoteOk req s))).length = ss.length := by
  intro ss
  induction ss with
  | nil => rfl
  | cons s rest ih =>
    rw [List.filter_cons, List.filter_cons]
    cases h : quoteOk req s with
    | true =>
      simp [h]
      omega
    | false =>
      simp [h]
      omega

/-- C1: on a non-empty registry, `GetAllQuotes` yields exactly one result
per carrier whose `GetQuote` succeeds, exactly one name-annotated error
per carrier whose `GetQuote` fails, results plus errors account for every
registered carrier exactly once, and every returned error is the wrapped
failure of one registered carrier. -/
theorem registry_getAllQuotes_partitions_carriers
    (shippers : List ShipperImpl) (req : QuoteRequest)
    (hne : shippers ≠ []) :
    (GetAllQuotes shippers req).1.length
        = (shippers.filter (quoteOk req)).length
    ∧ (GetAllQuotes shippers req).2.length
        = (shippers.filter (fun s => !(quoteOk req s))).length
    ∧ (GetAllQuotes shippers req).1.length + (GetAllQuotes shippers req).2.length
        = shippers.length
    ∧ ∀ e ∈ (GetAllQuotes shippers req).2,
        ∃ s ∈ shippers, ∃ err, s.getQuote req = .error err
          ∧ e = .wrapped s.name err := by
  match shippers, hne with
  | s₀ :: rest, _ =>
    have hdef : GetAllQuotes (s₀ :: rest) req
        = ((s₀ :: rest).filterMap (okPart req),
           (s₀ :: rest).filterMap (errPart req)) := rfl
    rw [hdef]
    refine ⟨length_filterMap_okPart req _, length_filterMap_errPart req _, ?_, ?_⟩
    · rw [length_filterMap_okPart req _, length_filterMap_errPart req _]
      exact filter_success_add_failure req _
    · intro e he
      rcases List.mem_filterMap.mp he with ⟨s, hs, hpart⟩
      refine ⟨s, hs, ?_⟩
      unfold errPart at hpart
      cases hq : s.getQuote req with
      | ok resp => rw [hq] at hpart; cases hpart
      | error err =>
        rw [hq] at hpart
        exact ⟨err, rfl, (Option.some_inj.mp hpart).symm⟩

/-- A mock carrier whose `GetQuote` always succeeds (used only to witness
the registry theorems on a concrete non-empty registry). -/
def wOK : ShipperImpl :=
  { name := "mock-ok",
    getQuote := fun _ => .ok { quoteID := "q1", rates := [], expiresAt := 0 } }

/-- A carrier whose `GetQuote` always fails (used only to witness the
registry theorems on a concrete non-empty registry). -/
def wBad : ShipperImpl :=
  { name := "mock-bad", getQuote := fun _ => .error (.apiE "X" "boom") }

theorem registry_getAllQuotes_partitions_carriers_witness :
    (GetAllQuotes [wOK, wBad] {}).1.length
        = ([wOK, wBad].filter (quoteOk {})).length
    ∧ (GetAllQuotes [wOK, wBad] {}).2.length
        = ([wOK, wBad].filter (fun s => !(quoteOk {} s))).length
    ∧ (GetAllQuotes [wOK, wBad] {}).1.length
          + (GetAllQuotes [wOK, wBad] {}).2.length = ([wOK, wBad] : List ShipperImpl).length
    ∧ ∀ e ∈ (GetAllQuotes [wOK, wBad] {}).2,
        ∃ s ∈ [wOK, wBad], ∃ err, s.getQuote {} = .error err
          ∧ e = .wrapped s.name err :=
  registry_getAllQuotes_partitions_carriers [wOK, wBad] {} (by simp)

/-- C3: `GetAllQuotes` on an empty registry returns no results and the
single `ErrCarrierNotFound` sentinel, and that error satisfies
`errors.Is` matching against the `ErrCarrierNotFound` sentinel. -/
theorem registry_getAllQuotes_empty (req : QuoteRequest) :
    GetAllQuotes [] req = ([], [ErrCarrierNotFound])
    ∧ errorsIs ErrCarrierNotFound ErrCarrierNotFound = true :=
  ⟨rfl, rfl⟩

/-- C6: `ShipperError.Is` matching between two structured carrier errors
holds exactly when the error codes are equal, whatever the carriers,
messages, status codes, retryable flags and (for a cause-free source
error, under full `errors.Is` unwrapping) causes are. -/
theorem shipperError_is_matches_code_only
    (c₁ k₁ m₁ : String) (s₁ : Int) (r₁ : Bool) (cs₁ : Option GoErr)
    (c₂ k₂ m₂ : String) (s₂ : Int) (r₂ : Bool) (cs₂ : Option GoErr) :
    shipperErrIs k₁ (.shipperE c₂ k₂ m₂ s₂ r₂ cs₂) = (k₁ == k₂)
    ∧ (cs₁ = none →
        errorsIs (.shipperE c₁ k₁ m₁ s₁ r₁ cs₁) (.shipperE c₂ k₂ m₂ s₂ r₂ cs₂)
          = (k₁ == k₂)) := by
  constructor
  · rfl
  · intro h
    subst h
    simp [errorsIs, errIsStep, shipperErrIs]

theorem shipperError_is_matches_code_only_witness :
    errorsIs (.shipperE "freightcom" "INVALID_ADDRESS" "bad street" 400 false none)
        (.shipperE "canadapost" "INVALID_ADDRESS" "no such postal code" 0 true none)
      = true := by
  have h := (shipperError_is_matches_code_only
      "freightcom" "INVALID_ADDRESS" "bad street" 400 false none
      "canadapost" "INVALID_ADDRESS" "no such postal code" 0 true none).2 rfl
  simpa using h

/-! ## Request-routing helpers (`internal/graphql/helpers.go`) -/

/-- Go `strings.HasPrefix`, on the underlying character sequences. -/
def goHasPrefix (pre s : String) : Bool :=
  pre.data.isPrefixOf s.data

/-- `carrierFromRateID`: carrier recovery from a bare rate id by literal
tag match. -/
def carrierFromRateID (rateID : String) : String :=
  if goHasPrefix "fc-" rateID then "freightcom"
  else if goHasPrefix "cp-" rateID then "canadapost"
  else if goHasPrefix "puro-" rateID then "purolator"
  else "unknown"

/-- `carrierFromOrderID`: carrier recovery from a bare order id by literal
tag match. -/
def carrierFromOrderID (orderID : String) : String :=
  if goHasPrefix "fc-" orderID then "freightcom"
  else if goHasPrefix "cp-" orderID then "canadapost"
  else if goHasPrefix "puro-" orderID then "purolator"
  else "unknown"

theorem isPrefixOf_head_exclusive (a b : Char) (p q l : List Char)
    (hab : a ≠ b) (h : (a :: p).isPrefixOf l = true) :
    (b :: q).isPrefixOf l = false := by
  cases l with
  | nil => simp [List.isPrefixOf] at h
  | cons y t =>
    simp only [List.isPrefixOf, Bool.and_eq_true, beq_iff_eq] at h
    have hby : (b == y) = false := by
      rw [beq_eq_false_iff_ne, ← h.1]
      exact fun hba => hab hba.symm
    simp [List.isPrefixOf, hby]

/-- C2: carrier resolution from a bare id is a pure function of the id's
literal tag (`fc-` → freightcom, `cp-` → canadapost, `puro-` →
purolator, anything else → unknown), and the rate-id and order-id
resolvers agree on every input. -/
theorem carrier_resolution_by_literal_id_tag (id : String) :
    (goHasPrefix "fc-" id = true → carrierFromRateID id = "freightcom")
    ∧ (goHasPrefix "cp-" id = true → carrierFromRateID id = "canadapost")
    ∧ (goHasPrefix "puro-" id = true → carrierFromRateID id = "purolator")
    ∧ (goHasPrefix "fc-" id = false → goHasPrefix "cp-" id = false →
        goHasPrefix "puro-" id = false → carrierFromRateID id = "unknown")
    ∧ carrierFromRateID id = carrierFromOrderID id := by
  have hfc : ("fc-").data = ['f', 'c', '-'] := rfl
  have hcp : ("cp-").data = ['c', 'p', '-'] := rfl
  have hpuro : ("puro-").data = ['p', 'u', 'r', 'o', '-'] := rfl
  refine ⟨?_, ?_, ?_, ?_, rfl⟩
  · intro h
    simp [carrierFromRateID, h]
  · intro h
    have hnofc : goHasPrefix "fc-" id = false := by
      unfold goHasPrefix at h ⊢
      rw [hcp] at h
      rw [hfc]
      exact isPrefixOf_head_exclusive 'c' 'f' _ _ _ (by decide) h
    simp [carrierFromRateID, h, hnofc]
  · intro h
    have hnofc : goHasPrefix "fc-" id = false := by
      unfold goHasPrefix at h ⊢
      rw [hpuro] at h
      rw [hfc]
      exact isPrefixOf_head_exclusive 'p' 'f' _ _ _ (by decide) h
    have hnocp : goHasPrefix "cp-" id = false := by
      unfold goHasPrefix at h ⊢
      rw [hpuro] at h
      rw [hcp]
      exact isPrefixOf_head_exclusive 'p' 'c' _ _ _ (by decide) h
    simp [carrierFromRateID, h, hnofc, hnocp]
  · intro h1 h2 h3
    simp [carrierFromRateID, h1, h2, h3]

theorem carrier_resolution_by_literal_id_tag_witness :
    carrierFromRateID "fc-abc123" = "freightcom"
    ∧ carrierFromRateID "cp-quote-42" = "canadapost"
    ∧ carrierFromRateID "puro-rate-7" = "purolator"
    ∧ carrierFromRateID "dhl-55" = "unknown"
    ∧ carrierFromRateID "fc-abc123" = carrierFromOrderID "fc-abc123" :=
  ⟨(carrier_resolution_by_literal_id_tag "fc-abc123").1 (by decide),
   (carrier_resolution_by_literal_id_tag "cp-quote-42").2.1 (by decide),
   (carrier_resolution_by_literal_id_tag "puro-rate-7").2.2.1 (by decide),
   (carrier_resolution_by_literal_id_tag "dhl-55").2.2.2.1 (by decide) (by decide)
     (by decide),
   (carrier_resolution_by_literal_id_tag "fc-abc123").2.2.2.2⟩

/-! ### Inbound GraphQL input types and their normalization

The `generated` input types are gqlgen output absent from the sources;
their shape (which fields are optional pointers) is fully determined by
how `helpers.go` dereferences them, and the enums are the closed GraphQL
enums, so the Go `default` arms of the unit/type switches are
unreachable. -/

/-- `generated.DimensionUnit` (closed GraphQL enum). -/
inductive GDimensionUnit where
  | CM
  | IN
  deriving Repr, DecidableEq

/-- `generated.WeightUnit` (closed GraphQL enum). -/
inductive GWeightUnit where
  | KG
  | LB
  deriving Repr, DecidableEq

/-- `generated.PackageType` (closed GraphQL enum). -/
inductive GPackageType where
  | BOX
  | ENVELOPE
  | TUBE
  | PALLET
  | CUSTOM
  deriving Repr, DecidableEq

/-- Go constant `shipper.PackageEnvelope`. -/
def PackageEnvelope : String := "envelope"

/-- Go constant `shipper.PackageTube`. -/
def PackageTube : String := "tube"

/-- Go constant `shipper.PackagePallet`. -/
def PackagePallet : String := "pallet"

/-- Go constant `shipper.PackageCustom`. -/
def PackageCustom : String := "custom"

/-- `generated.AddressInput`: required fields are plain strings, the rest
are nullable pointers. -/
structure AddressInput where
  name : String
  line1 : String
  city : String
  provinceCode : String
  postalCode : String
  phone : String
  company : Option String := none
  line2 : Option String := none
  countryCode : Option String := none
  email : Option String := none
  instructions : Option String := none
  isResidential : Option Bool := none
  deriving Repr, DecidableEq

/-- `generated.PackageInput`: decimal fields arrive as wire strings, the
optional fields as nullable pointers. -/
structure PackageInput where
  length : String
  width : String
  height : String
  weight : String
  dimensionUnit : Option GDimensionUnit := none
  weightUnit : Option GWeightUnit := none
  packageType : Option GPackageType := none
  description : Option String := none
  declaredValue : Option String := none
  currency : Option String := none
  deriving Repr, DecidableEq

/-- Digit run to a natural number (helper for `parseDecimal`). -/
def digitsToNat (ds : List Char) : Nat :=
  ds.foldl (fun acc c => acc * 10 + (c.toNat - ('0').toNat)) 0

/-- `parseDecimal` (and the purolator adapter's identical `parseFloat`):
`fmt.Sscanf(s, "%f", &f)` modelled on plain decimal notation — optional
sign, digit run, optional fractional digit run; anything unparsable
leaves the zero value. -/
def parseDecimal (s : String) : Rat :=
  let signSplit : Rat × List Char :=
    match s.data with
    | '-' :: t => (-1, t)
    | '+' :: t => (1, t)
    | t => (1, t)
  let intPart := signSplit.2.takeWhile Char.isDigit
  let afterInt := signSplit.2.drop intPart.length
  let fracPart :=
    match afterInt with
    | '.' :: t => t.takeWhile Char.isDigit
    | _ => []
  if intPart.isEmpty && fracPart.isEmpty then 0
  else
    signSplit.1 *
      ((digitsToNat intPart : Rat)
        + (digitsToNat fracPart : Rat) / ((10 : Rat) ^ fracPart.length))

/-- `dimensionUnitToModel`. -/
def dimensionUnitToModel : GDimensionUnit → String
  | .CM => DimensionCM
  | .IN => DimensionIN

/-- `weightUnitToModel`. -/
def weightUnitToModel : GWeightUnit → String
  | .KG => WeightKG
  | .LB => WeightLB

/-- `packageTypeToModel`. -/
def packageTypeToModel : GPackageType → String
  | .BOX => PackageBox
  | .ENVELOPE => PackageEnvelope
  | .TUBE => PackageTube
  | .PALLET => PackagePallet
  | .CUSTOM => PackageCustom

/-- `addressInputToModel`: a nil input yields the zero-value `Address`;
otherwise required fields are copied, optional fields are copied when
present, and an absent country code defaults to `"CA"`. -/
def addressInputToModel : Option AddressInput → Address
  | none => {}
  | some input =>
    { name := input.name
      line1 := input.line1
      city := input.city
      provinceCode := input.provinceCode
      postalCode := input.postalCode
      phone := input.phone
      company := input.company.getD ""
      line2 := input.line2.getD ""
      countryCode :=
        match input.countryCode with
        | some c => c
        | none => "CA"
      email := input.email.getD ""
      instructions := input.instructions.getD ""
      isResidential := input.isResidential.getD false }

/-- The loop body of `packagesInputToModel`: one `PackageInput` to one
domain `Package`, with cm/kg/box/"CAD" defaults for absent fields. -/
def packageInputToModel (input : PackageInput) : Package :=
  { length := parseDecimal input.length
    width := parseDecimal input.width
    height := parseDecimal input.height
    weight := parseDecimal input.weight
    dimensionUnit :=
      match input.dimensionUnit with
      | some du => dimensionUnitToModel du
      | none => DimensionCM
    weightUnit :=
      match input.weightUnit with
      | some wu => weightUnitToModel wu
      | none => WeightKG
    packageType :=
      match input.packageType with
      | some pt => packageTypeToModel pt
      | none => PackageBox
    description := input.description.getD ""
    declaredValue :=
      match input.declaredValue with
      | some v => parseDecimal v
      | none => 0
    currency :=
      match input.currency with
      | some c => c
      | none => "CAD" }

/-- `packagesInputToModel`: the index loop over the inputs. -/
def packagesInputToModel (inputs : List PackageInput) : List Package :=
  inputs.map packageInputToModel

/-- C9: at the inbound boundary an omitted country code normalizes to
`"CA"`, omitted dimension/weight units normalize to cm/kg, an omitted
currency normalizes to `"CAD"`, and explicitly supplied values pass
through unchanged (units through the unit enum translation, which is the
identity on the unit names). -/
theorem inbound_defaults_normalization (a : AddressInput) (p : PackageInput) :
    (a.countryCode = none → (addressInputToModel (some a)).countryCode = "CA")
    ∧ (∀ c, a.countryCode = some c → (addressInputToModel (some a)).countryCode = c)
    ∧ (p.dimensionUnit = none →
        (packagesInputToModel [p]).map Package.dimensionUnit = [DimensionCM])
    ∧ (∀ du, p.dimensionUnit = some du →
        (packagesInputToModel [p]).map Package.dimensionUnit
          = [dimensionUnitToModel du])
    ∧ (p.weightUnit = none →
        (packagesInputToModel [p]).map Package.weightUnit = [WeightKG])
    ∧ (∀ wu, p.weightUnit = some wu →
        (packagesInputToModel [p]).map Package.weightUnit = [weightUnitToModel wu])
    ∧ (p.currency = none →
        (packagesInputToModel [p]).map Package.currency = ["CAD"])
    ∧ (∀ c, p.currency = some c →
        (packagesInputToModel [p]).map Package.currency = [c])
    ∧ dimensionUnitToModel .CM = "cm" ∧ dimensionUnitToModel .IN = "in"
    ∧ weightUnitToModel .KG = "kg" ∧ weightUnitToModel .LB = "lb" := by
  refine ⟨?_, ?_, ?_, ?_, ?_, ?_, ?_, ?_, rfl, rfl, rfl, rfl⟩
  all_goals
    first
    | (intro h; simp [addressInputToModel, packagesInputToModel,
        packageInputToModel, h])
    | (intro x h; simp [addressInputToModel, packagesInputToModel,
        packageInputToModel, h])

/-- Witness input: address with no country code. -/
def wAddrNoCountry : AddressInput where
  name := "A"
  line1 := "1 Main"
  city := "Toronto"
  provinceCode := "ON"
  postalCode := "M5V 1A1"
  phone := "416"

/-- Witness input: address with an explicit country code. -/
def wAddrUS : AddressInput where
  name := "B"
  line1 := "2 Oak"
  city := "Buffalo"
  provinceCode := "NY"
  postalCode := "14201"
  phone := "716"
  countryCode := some "US"

/-- Witness input: package with all optional fields absent. -/
def wPkgBare : PackageInput where
  length := "10"
  width := "10"
  height := "10"
  weight := "5"

/-- Witness input: package with explicit units and currency. -/
def wPkgExplicit : PackageInput where
  length := "10"
  width := "10"
  height := "10"
  weight := "5"
  dimensionUnit := some .IN
  weightUnit := some .LB
  currency := some "USD"

theorem inbound_defaults_normalization_witness :
    (addressInputToModel (some wAddrNoCountry)).countryCode = "CA"
    ∧ (addressInputToModel (some wAddrUS)).countryCode = "US"
    ∧ (packagesInputToModel [wPkgBare]).map Package.dimensionUnit = [DimensionCM]
    ∧ (packagesInputToModel [wPkgBare]).map Package.weightUnit = [WeightKG]
    ∧ (packagesInputToModel [wPkgBare]).map Package.currency = ["CAD"]
    ∧ (packagesInputToModel [wPkgExplicit]).map Package.currency = ["USD"] :=
  ⟨(inbound_defaults_normalization wAddrNoCountry wPkgBare).1 rfl,
   (inbound_defaults_normalization wAddrUS wPkgBare).2.1 "US" rfl,
   (inbound_defaults_normalization wAddrNoCountry wPkgBare).2.2.1 rfl,
   (inbound_defaults_normalization wAddrNoCountry wPkgBare).2.2.2.2.1 rfl,
   (inbound_defaults_normalization wAddrNoCountry wPkgBare).2.2.2.2.2.2.1 rfl,
   (inbound_defaults_normalization wAddrNoCountry wPkgExplicit).2.2.2.2.2.2.2.1
     "USD" rfl⟩

/-! ## Async-poll adapter (`pkg/shipper/freightcom/api_http.go`)

The poll loop is embedded with abstract time: each transport round trip
is instantaneous and the clock advances only by the `time.Sleep` between
pending polls, so at the top of loop iteration `k` (0-based) the elapsed
wall-clock time is `k * interval`, and Go's strict
`time.Now().After(deadline)` becomes `k * interval > timeout`.  The
context is embedded as the predicate `ctxDone` saying whether the
context's done channel is closed at iteration `k`; the source's
`select`-on-`ctx.Done()` at the top of each iteration becomes a check of
that predicate, returning `ctx.Err()`.  The transport is a stub mapping
the poll index to the decoded `RatesResponse` of that poll (transport
and decode failures, which short-circuit the loop in the source, are not
exercised by the claims).  Successful results are instrumented with the
number of status polls performed. -/

/-- `freightcom.Rate` (wire rate option). -/
structure FRate where
  id : String := ""
  serviceID : Int := 0
  carrierCode : String := ""
  carrierName : String := ""
  serviceCode : String := ""
  serviceName : String := ""
  baseRate : Rat := 0
  fuelSurcharge : Rat := 0
  totalTax : Rat := 0
  totalPrice : Rat := 0
  currency : String := ""
  transitDays : Int := 0
  estimatedDelivery : String := ""
  expiresAt : String := ""
  guaranteed : Bool := false
  deriving Repr, DecidableEq

/-- `freightcom.RatesResponse` (decoded body of `GET /rate/{id}`). -/
structure FRatesResponse where
  requestID : String := ""
  status : String := ""
  rates : List FRate := []
  error : String := ""
  deriving Repr, DecidableEq

/-- `freightcom.APIError`. -/
structure FAPIError where
  code : String
  message : String
  deriving Repr, DecidableEq

/-- The error raised when the poll deadline elapses. -/
def timeoutError : FAPIError :=
  { code := "TIMEOUT", message := "Rate request timed out waiting for results" }

/-- The two error channels of the poll loop: an adapter `APIError`, or
`ctx.Err()` when the context's cancellation is observed. -/
inductive PollError where
  | api (e : FAPIError)
  | ctxErr
  deriving Repr, DecidableEq

/-- One-to-one embedding of the `pollRates` loop body: context
cancellation checked first, then the wall-clock deadline, then the poll
and the status switch.  Structurally recursive on a fuel bound on the
number of iterations (the wrapper `pollRates` supplies a fuel that
provably exceeds every reachable iteration count, so the fuel-exhausted
branch is dead code). -/
def pollRatesAux (ctxDone : Nat → Bool) (stub : Nat → FRatesResponse)
    (interval timeout : Nat) :
    Nat → Nat → Except PollError (FRatesResponse × Nat)
  | 0, _ => .error (.api { code := "FUEL_EXHAUSTED", message := "loop bound exceeded" })
  | fuel + 1, k =>
    if ctxDone k then
      .error .ctxErr
    else if k * interval > timeout then
      .error (.api timeoutError)
    else
      let result := stub k
      if result.status = "complete" then
        .ok (result, k + 1)
      else if result.status = "error" then
        .error (.api { code := "RATE_ERROR", message := result.error })
      else if result.status = "pending" then
        pollRatesAux ctxDone stub interval timeout fuel (k + 1)
      else
        .error (.api { code := "UNKNOWN_STATUS",
                       message := "Unknown rate status: " ++ result.status })

/-- `pollRates`: poll from iteration 0 with enough fuel for every
iteration the deadline admits. -/
def pollRates (ctxDone : Nat → Bool) (stub : Nat → FRatesResponse)
    (interval timeout : Nat) : Except PollError (FRatesResponse × Nat) :=
  pollRatesAux ctxDone stub interval timeout (timeout / interval + 2) 0

theorem pollRatesAux_completes (ctxDone : Nat → Bool)
    (stub : Nat → FRatesResponse) (interval timeout N : Nat)
    (hctx : ∀ m, m ≤ N → ctxDone m = false)
    (hpend : ∀ m, m < N → (stub m).status = "pending")
    (hdone : (stub N).status = "complete")
    (hbound : N * interval ≤ timeout) :
    ∀ fuel k, k ≤ N → N - k < fuel →
      pollRatesAux ctxDone stub interval timeout fuel k = .ok (stub N, N + 1) := by
  intro fuel
  induction fuel with
  | zero => intro k _ hf; omega
  | succ fuel ih =>
    intro k hk hf
    have hc := hctx k hk
    have hnotime : ¬ k * interval > timeout := by
      have : k * interval ≤ N * interval := Nat.mul_le_mul_right _ hk
      omega
    by_cases hkN : k = N
    · subst hkN
      simp [pollRatesAux, hc, hnotime, hdone]
    · have hklt : k < N := lt_of_le_of_ne hk hkN
      have hp := hpend k hklt
      have hrec := ih (k + 1) hklt (by omega)
      simp [pollRatesAux, hc, hnotime, hp, hrec]

theorem pollRatesAux_times_out (ctxDone : Nat → Bool)
    (stub : Nat → FRatesResponse) (interval timeout : Nat) (hpos : 0 < interval)
    (hctx : ∀ m, ctxDone m = false)
    (hpend : ∀ m, (stub m).status = "pending") :
    ∀ fuel k, (timeout / interval + 1) - k < fuel →
      pollRatesAux ctxDone stub interval timeout fuel k
        = .error (.api timeoutError) := by
  intro fuel
  induction fuel with
  | zero => intro k hf; omega
  | succ fuel ih =>
    intro k hf
    by_cases htime : k * interval > timeout
    · simp [pollRatesAux, hctx k, htime]
    · have hkle : k ≤ timeout / interval :=
        (Nat.le_div_iff_mul_le hpos).mpr (by omega)
      have hp := hpend k
      have hrec := ih (k + 1) (by omega)
      simp [pollRatesAux, hctx k, htime, hp, hrec]

theorem pollRatesAux_cancelled (ctxDone : Nat → Bool)
    (stub : Nat → FRatesResponse) (interval timeout j : Nat)
    (hcan : ctxDone j = true)
    (hbefore : ∀ m, m < j → ctxDone m = false ∧ (stub m).status = "pending")
    (hbound : j * interval ≤ timeout) :
    ∀ fuel k, k ≤ j → j - k < fuel →
      pollRatesAux ctxDone stub interval timeout fuel k = .error .ctxErr := by
  intro fuel
  induction fuel with
  | zero => intro k _ hf; omega
  | succ fuel ih =>
    intro k hk hf
    by_cases hkj : k = j
    · subst hkj
      simp [pollRatesAux, hcan]
    · have hklt : k < j := lt_of_le_of_ne hk hkj
      obtain ⟨hc, hp⟩ := hbefore k hklt
      have hnotime : ¬ k * interval > timeout := by
        have : k * interval ≤ j * interval := Nat.mul_le_mul_right _ hk
        omega
      have hrec := ih (k + 1) hklt (by omega)
      simp [pollRatesAux, hc, hnotime, hp, hrec]

/-- C4 (amended): with a positive poll interval and the context
uncancelled, if the transport reports `pending` for the first `N` polls
and `complete` on poll `N + 1`, and `N` sleeps still fit inside the poll
deadline, `pollRates` returns the completed rates after exactly `N + 1`
polls; if the transport never leaves `pending`, `pollRates` returns the
`TIMEOUT` error once the wall-clock deadline has elapsed; and context
cancellation is checked on each iteration: the first iteration at which
the context is cancelled stops the loop with `ctx.Err()`, whatever the
transport would have answered. -/
theorem freightcom_pollRates_contract (interval timeout : Nat)
    (hpos : 0 < interval) :
    (∀ ctxDone stub N, (∀ m, m ≤ N → ctxDone m = false) →
        (∀ m, m < N → (stub m).status = "pending") →
        (stub N).status = "complete" → N * interval ≤ timeout →
        pollRates ctxDone stub interval timeout = .ok (stub N, N + 1))
    ∧ (∀ ctxDone stub, (∀ m, ctxDone m = false) →
        (∀ m, (stub m).status = "pending") →
        pollRates ctxDone stub interval timeout = .error (.api timeoutError))
    ∧ (∀ ctxDone stub j, ctxDone j = true →
        (∀ m, m < j → ctxDone m = false ∧ (stub m).status = "pending") →
        j * interval ≤ timeout →
        pollRates ctxDone stub interval timeout = .error .ctxErr) := by
  refine ⟨?_, ?_, ?_⟩
  · intro ctxDone stub N hctx hpend hdone hbound
    have hN : N ≤ timeout / interval := (Nat.le_div_iff_mul_le hpos).mpr hbound
    refine pollRatesAux_completes ctxDone stub interval timeout N hctx hpend
      hdone hbound (timeout / interval + 2) 0 (Nat.zero_le _) ?_
    rw [Nat.sub_zero]
    exact lt_of_le_of_lt hN (Nat.lt_add_of_pos_right (by decide))
  · intro ctxDone stub hctx hpend
    refine pollRatesAux_times_out ctxDone stub interval timeout hpos hctx hpend
      (timeout / interval + 2) 0 ?_
    rw [Nat.sub_zero]
    exact Nat.add_lt_add_left (by decide) _
  · intro ctxDone stub j hcan hbefore hbound
    have hj : j ≤ timeout / interval := (Nat.le_div_iff_mul_le hpos).mpr hbound
    refine pollRatesAux_cancelled ctxDone stub interval timeout j hcan hbefore
      hbound (timeout / interval + 2) 0 (Nat.zero_le _) ?_
    rw [Nat.sub_zero]
    exact lt_of_le_of_lt hj (Nat.lt_add_of_pos_right (by decide))

/-- Witness stub: `pending` on polls 0 and 1, `complete` on poll 2. -/
def wStubN : Nat → FRatesResponse := fun k =>
  if k = 2 then { status := "complete", requestID := "r1" }
  else { status := "pending", requestID := "r1" }

/-- Witness stub: `pending` on every poll. -/
def wStubPend : Nat → FRatesResponse := fun _ => { status := "pending" }

/-- Witness context: never cancelled. -/
def wCtxNever : Nat → Bool := fun _ => false

/-- Witness context: cancelled from iteration 1 on. -/
def wCtxAtOne : Nat → Bool := fun k => 1 ≤ k

theorem freightcom_pollRates_contract_witness :
    pollRates wCtxNever wStubN 1 5 = .ok (wStubN 2, 3)
    ∧ pollRates wCtxNever wStubPend 1 5 = .error (.api timeoutError)
    ∧ pollRates wCtxAtOne wStubPend 1 5 = .error .ctxErr := by
  have h := freightcom_pollRates_contract 1 5 (by decide)
  refine ⟨h.1 wCtxNever wStubN 2 (fun m _ => rfl) ?_ rfl (by decide),
          h.2.1 wCtxNever wStubPend (fun _ => rfl) (fun _ => rfl),
          h.2.2 wCtxAtOne wStubPend 1 rfl ?_ (by decide)⟩
  · intro m hm
    match m, hm with
    | 0, _ => rfl
    | 1, _ => rfl
  · intro m hm
    match m, hm with
    | 0, _ => exact ⟨rfl, rfl⟩

/-- The stub of the counterexample: `pending` on the first three polls,
`complete` from poll 3 on. -/
def cxStub : Nat → FRatesResponse := fun k =>
  if k < 3 then { status := "pending" } else { status := "complete" }

/-- C4 as literally stated fails: with poll interval 1 and poll deadline
2 and the context never cancelled, a transport that is `pending` on the
first 3 polls and `complete` on the next one makes `pollRates` hit the
wall-clock deadline and return the `TIMEOUT` error instead of succeeding
after 4 polls. -/
theorem freightcom_poll_claim_counterexample :
    (cxStub 0).status = "pending" ∧ (cxStub 1).status = "pending"
    ∧ (cxStub 2).status = "pending" ∧ (cxStub 3).status = "complete"
    ∧ pollRates wCtxNever cxStub 1 2 = .error (.api timeoutError)
    ∧ pollRates wCtxNever cxStub 1 2 ≠ .ok (cxStub 3, 4) := by
  have hres : pollRates wCtxNever cxStub 1 2 = .error (.api timeoutError) := rfl
  refine ⟨rfl, rfl, rfl, rfl, hres, ?_⟩
  rw [hres]
  simp

/-! ## SOAP adapter (`pkg/shipper/purolator`, SOAP client)

`parseRatesResponse` is embedded on the already-decoded SOAP envelope
(the `xml.Unmarshal` step is transport plumbing).  Only the body slots the
rate parser inspects are modelled; the other per-operation response slots
are never read by it. -/

/-- Purolator `APIError`. -/
structure PAPIError where
  code : String
  description : String
  deriving Repr, DecidableEq

/-- `soapFault` (the `Fault` element: `faultcode`, `faultstring`). -/
structure PSoapFault where
  code : String
  faultString : String
  deriving Repr, DecidableEq

/-- `responseError` inside `ResponseInformation.Errors`. -/
structure PResponseError where
  code : String
  description : String
  deriving Repr, DecidableEq

/-- `responseMessage` inside `ResponseInformation.InformationalMessages`. -/
structure PResponseMessage where
  code : String
  message : String
  deriving Repr, DecidableEq

/-- `responseInfo`. -/
structure PResponseInfo where
  errors : List PResponseError := []
  messages : List PResponseMessage := []
  deriving Repr, DecidableEq

/-- `soapSurcharge`. -/
structure PSurcharge where
  amount : String := ""
  type : String := ""
  description : String := ""
  deriving Repr, DecidableEq

/-- `soapTax`. -/
structure PTax where
  amount : String := ""
  type : String := ""
  description : String := ""
  deriving Repr, DecidableEq

/-- `shipmentEstimate`. -/
structure PShipmentEstimate where
  serviceID : String := ""
  shipmentDate : String := ""
  expectedDeliveryDate : String := ""
  estimatedTransitDays : Int := 0
  basePrice : String := ""
  surcharges : List PSurcharge := []
  taxes : List PTax := []
  totalPrice : String := ""
  deriving Repr, DecidableEq

/-- `getFullEstimateResponse`. -/
structure PGetFullEstimateResponse where
  responseInformation : PResponseInfo := {}
  shipmentEstimates : List PShipmentEstimate := []
  deriving Repr, DecidableEq

/-- `soapBody` (rate-parser view: the `Fault` slot and the
`GetFullEstimateResponse` slot). -/
structure PSoapBody where
  fault : Option PSoapFault := none
  getFullEstimateResponse : Option PGetFullEstimateResponse := none
  deriving Repr, DecidableEq

/-- `soapEnvelope`. -/
structure PSoapEnvelope where
  body : PSoapBody
  deriving Repr, DecidableEq

/-- Purolator's `parseFloat`, textually identical to the resolver layer's
`parseDecimal`. -/
def parseFloat (s : String) : Rat :=
  parseDecimal s

/-- `mapServiceName`: static service-name display table with raw-code
fallback. -/
def mapServiceName (serviceID : String) : String :=
  match serviceID with
  | "PurolatorExpress" => "Purolator Express"
  | "PurolatorExpress9AM" => "Purolator Express 9AM"
  | "PurolatorExpress10:30AM" => "Purolator Express 10:30AM"
  | "PurolatorExpress12PM" => "Purolator Express 12PM"
  | "PurolatorExpressEvening" => "Purolator Express Evening"
  | "PurolatorGround" => "Purolator Ground"
  | "PurolatorGround9AM" => "Purolator Ground 9AM"
  | "PurolatorGround10:30AM" => "Purolator Ground 10:30AM"
  | "PurolatorExpressUS" => "Purolator Express U.S."
  | "PurolatorExpressUSPack" => "Purolator Express U.S. Pack"
  | "PurolatorGroundUS" => "Purolator Ground U.S."
  | _ => serviceID

/-- `isGuaranteedService`: static guaranteed-service table, false for
unknown codes. -/
def isGuaranteedService (serviceID : String) : Bool :=
  match serviceID with
  | "PurolatorExpress" => true
  | "PurolatorExpress9AM" => true
  | "PurolatorExpress10:30AM" => true
  | "PurolatorExpress12PM" => true
  | "PurolatorExpressEvening" => true
  | "PurolatorExpressUS" => true
  | _ => false

/-- `ShipmentRate` (the adapter-level rate produced by the parser). -/
structure PShipmentRate where
  serviceCode : String
  serviceName : String
  basePrice : Rat
  fuelSurcharge : Rat
  taxes : Rat
  totalPrice : Rat
  expectedDeliveryDate : String
  estimatedTransitDays : Int
  guaranteedDelivery : Bool
  deriving Repr, DecidableEq

/-- Purolator `RatesResponse`. -/
structure PRatesResponse where
  quoteID : String
  shipmentRates : List PShipmentRate
  deriving Repr, DecidableEq

/-- The fuel-surcharge scan inside the estimate loop: each matching
surcharge overwrites the previous value (no break in the source). -/
def fuelFromSurcharges (scs : List PSurcharge) : Rat :=
  scs.foldl
    (fun acc sc =>
      if sc.type = "Fuel" ∨ sc.type = "FuelSurcharge" then parseFloat sc.amount
      else acc)
    0

/-- The tax sum inside the estimate loop. -/
def sumTaxes (ts : List PTax) : Rat :=
  ts.foldl (fun acc t => acc + parseFloat t.amount) 0

/-- The estimate-to-rate translation inside the loop of
`parseRatesResponse`. -/
def estimateToRate (est : PShipmentEstimate) : PShipmentRate :=
  { serviceCode := est.serviceID
    serviceName := mapServiceName est.serviceID
    basePrice := parseFloat est.basePrice
    fuelSurcharge := fuelFromSurcharges est.surcharges
    taxes := sumTaxes est.taxes
    totalPrice := parseFloat est.totalPrice
    expectedDeliveryDate := est.expectedDeliveryDate
    estimatedTransitDays := est.estimatedTransitDays
    guaranteedDelivery := isGuaranteedService est.serviceID }

/-- `parseRatesResponse` on a decoded envelope: a `Fault` short-circuits
to a carrier error; a missing `GetFullEstimateResponse` is a parse error;
a non-empty `ResponseInformation.Errors` yields a carrier error carrying
the first listed error; otherwise the estimates are translated.  `now` is
the `time.Now().UnixNano()` tick used to mint the quote id. -/
def parseRatesResponse (now : Nat) (env : PSoapEnvelope) :
    Except PAPIError PRatesResponse :=
  match env.body.fault with
  | some f => .error { code := f.code, description := f.faultString }
  | none =>
    match env.body.getFullEstimateResponse with
    | none => .error { code := "PARSE_ERROR",
                       description := "No rate estimates in response" }
    | some resp =>
      match resp.responseInformation.errors with
      | e :: _ => .error { code := e.code, description := e.description }
      | [] =>
        .ok { quoteID := "puro-quote-" ++ toString now,
              shipmentRates := resp.shipmentEstimates.map estimateToRate }

/-- C5: a `Fault` element always short-circuits the SOAP rate parser to a
carrier error carrying the fault code, whatever structured result data is
present; with no fault, a non-empty `ResponseInformation.Errors` list also
yields a carrier error, carrying the first listed error's code, and never
rates. -/
theorem purolator_fault_and_response_errors (now : Nat) (env : PSoapEnvelope) :
    (∀ f, env.body.fault = some f →
        parseRatesResponse now env
          = .error { code := f.code, description := f.faultString })
    ∧ (∀ r e rest, env.body.fault = none →
        env.body.getFullEstimateResponse = some r →
        r.responseInformation.errors = e :: rest →
        parseRatesResponse now env
          = .error { code := e.code, description := e.description }) := by
  constructor
  · intro f hf
    simp [parseRatesResponse, hf]
  · intro r e rest hnf hr herr
    simp [parseRatesResponse, hnf, hr, herr]

/-- Witness envelope: a fault alongside a fully populated estimate
response. -/
def wEnvFault : PSoapEnvelope where
  body :=
    { fault := some { code := "soap:Server", faultString := "boom" }
      getFullEstimateResponse := some
        { responseInformation := {}
          shipmentEstimates := [{ serviceID := "PurolatorExpress",
                                  basePrice := "10.00", totalPrice := "11.50" }] } }

/-- Witness envelope: no fault, one `ResponseInformation` error. -/
def wEnvRespErr : PSoapEnvelope where
  body :=
    { getFullEstimateResponse := some
        { responseInformation :=
            { errors := [{ code := "1100519", description := "invalid postal code" }] }
          shipmentEstimates := [] } }

theorem purolator_fault_and_response_errors_witness :
    parseRatesResponse 7 wEnvFault
      = .error { code := "soap:Server", description := "boom" }
    ∧ parseRatesResponse 7 wEnvRespErr
      = .error { code := "1100519", description := "invalid postal code" } :=
  ⟨(purolator_fault_and_response_errors 7 wEnvFault).1
      { code := "soap:Server", faultString := "boom" } rfl,
   (purolator_fault_and_response_errors 7 wEnvRespErr).2
      { responseInformation :=
          { errors := [{ code := "1100519", description := "invalid postal code" }] }
        shipmentEstimates := [] }
      { code := "1100519", description := "invalid postal code" } [] rfl rfl rfl⟩

/-! ## XML/REST adapter (`pkg/shipper/canadapost`)

Money stays `Rat`; `time.Now()` ticks and the `time.Now().Format(...)`
rate-id stamp are explicit parameters; a carrier date string that the
source parses with `time.Parse` and only stores is embedded by an
injective integer code (`strTicks`), since no claim inspects date
values. -/

/-- Injective integer code of a date string (stands for the parsed
`time.Time`). -/
def strTicks (s : String) : Int :=
  s.data.foldl (fun a c => a * 1114112 + (c.toNat : Int)) 0

/-- 30 minutes in nanosecond ticks (`30 * time.Minute`). -/
def thirtyMinutesNs : Int := 1800000000000

/-- `canadapost.Dimensions` (API layer). -/
structure CPDimensions where
  length : Rat := 0
  width : Rat := 0
  height : Rat := 0
  deriving Repr, DecidableEq

/-- `canadapost.DomesticDestination`. -/
structure CPDomesticDestination where
  postalCode : String
  deriving Repr, DecidableEq

/-- `canadapost.InternationalDestination`. -/
structure CPInternationalDestination where
  countryCode : String
  deriving Repr, DecidableEq

/-- `canadapost.Destination` (API layer; nil pointers as `none`). -/
structure CPDestination where
  domestic : Option CPDomesticDestination := none
  international : Option CPInternationalDestination := none
  deriving Repr, DecidableEq

/-- `canadapost.RatesRequest` (API layer). -/
structure CPRatesRequest where
  customerNumber : String := ""
  parcelType : String := ""
  weight : Rat := 0
  dimensions : CPDimensions := {}
  originPostal : String := ""
  destination : CPDestination := {}
  deriving Repr, DecidableEq

/-- `canadapost.Rate` (API layer). -/
structure CPRate where
  serviceCode : String := ""
  serviceName : String := ""
  baseRate : Rat := 0
  fuelSurcharge : Rat := 0
  taxes : Rat := 0
  totalPrice : Rat := 0
  expectedTransit : Int := 0
  expectedDelivery : String := ""
  guaranteedDelivery : Bool := false
  deriving Repr, DecidableEq

/-- `canadapost.RatesResponse` (API layer). -/
structure CPRatesResponse where
  quoteID : String := ""
  rates : List CPRate := []
  deriving Repr, DecidableEq

/-- The destination selection inside `Client.GetQuote`: empty or `"CA"`
country code → domestic destination with the destination postal code,
anything else → international destination with the country code. -/
def quoteDestination (dest : Address) : CPDestination :=
  if dest.countryCode = "" ∨ dest.countryCode = "CA" then
    { domestic := some { postalCode := dest.postalCode } }
  else
    { international := some { countryCode := dest.countryCode } }

/-- The `RatesRequest` built by `Client.GetQuote`: customer number,
origin postal code, the destination variant, and — when at least one
package is present — the first package's weight and dimensions. -/
def quoteToRatesRequest (accountID : String) (req : QuoteRequest) :
    CPRatesRequest :=
  match req.packages.head? with
  | some pkg =>
    { customerNumber := accountID
      originPostal := req.origin.postalCode
      destination := quoteDestination req.destination
      weight := pkg.weight
      dimensions := { length := pkg.length, width := pkg.width,
                      height := pkg.height } }
  | none =>
    { customerNumber := accountID
      originPostal := req.origin.postalCode
      destination := quoteDestination req.destination }

/-- `normalizePostalCode`: uppercase, spaces stripped. -/
def normalizePostalCode (pc : String) : String :=
  String.mk ((pc.data.map Char.toUpper).filter (fun c => c ≠ ' '))

/-- Wire `xmlDimensions`. -/
structure XmlDimensions where
  length : Rat
  width : Rat
  height : Rat
  deriving Repr, DecidableEq

/-- Wire `xmlDomestic`. -/
structure XmlDomestic where
  postalCode : String
  deriving Repr, DecidableEq

/-- Wire `xmlUnitedStates`. -/
structure XmlUnitedStates where
  zipCode : String
  deriving Repr, DecidableEq

/-- Wire `xmlInternational`. -/
structure XmlInternational where
  countryCode : String
  deriving Repr, DecidableEq

/-- Wire `xmlDestination`. -/
structure XmlDestination where
  domestic : Option XmlDomestic := none
  unitedStates : Option XmlUnitedStates := none
  international : Option XmlInternational := none
  deriving Repr, DecidableEq

/-- Wire `parcelCharacteristics`. -/
structure ParcelCharacteristics where
  weight : Rat
  dimensions : Option XmlDimensions := none
  deriving Repr, DecidableEq

/-- Wire `mailingScenario` (the XML rate request body). -/
structure MailingScenario where
  xmlns : String
  customerNumber : String := ""
  contractID : String := ""
  parcelCharacter : ParcelCharacteristics
  originPostalCode : String
  destination : XmlDestination
  deriving Repr, DecidableEq

/-- The destination block of `HTTPAPIClient.GetRates`: domestic passes
the normalized postal code through; an international destination with
country code `"US"` selects the united-states variant (the source fills
its zip-code element with the country code); any other international
destination selects the international variant. -/
def scenarioDestination (d : CPDestination) : XmlDestination :=
  match d.domestic with
  | some dd => { domestic := some { postalCode := normalizePostalCode dd.postalCode } }
  | none =>
    match d.international with
    | some i =>
      if i.countryCode = "US" then
        { unitedStates := some { zipCode := i.countryCode } }
      else
        { international := some { countryCode := i.countryCode } }
    | none => {}

/-- The `mailingScenario` built by `HTTPAPIClient.GetRates` from the
API-layer request (dimensions included only when the length is
positive). -/
def ratesRequestToScenario (rr : CPRatesRequest) : MailingScenario :=
  { xmlns := "http://www.canadapost.ca/ws/ship/rate-v4"
    customerNumber := rr.customerNumber
    originPostalCode := normalizePostalCode rr.originPostal
    parcelCharacter :=
      { weight := rr.weight
        dimensions :=
          if rr.dimensions.length > 0 then
            some { length := rr.dimensions.length, width := rr.dimensions.width,
                   height := rr.dimensions.height }
          else none }
    destination := scenarioDestination rr.destination }

/-- The wire rate request `GetQuote` ends up sending: the composition of
the request construction in `Client.GetQuote` and the scenario
construction in `HTTPAPIClient.GetRates`. -/
def cpWireRatesScenario (accountID : String) (req : QuoteRequest) :
    MailingScenario :=
  ratesRequestToScenario (quoteToRatesRequest accountID req)

theorem quoteToRatesRequest_destination (accountID : String)
    (req : QuoteRequest) :
    (quoteToRatesRequest accountID req).destination
      = quoteDestination req.destination := by
  unfold quoteToRatesRequest
  cases req.packages.head? with
  | some pkg => rfl
  | none => rfl

/-- C8 (amended): the wire rate request carries the domestic variant when
the destination country code is `"CA"` or empty, the united-states
variant when it is `"US"`, and the international variant for every other
value. -/
theorem canadapost_destination_variant (accountID : String)
    (req : QuoteRequest) :
    ((req.destination.countryCode = "CA" ∨ req.destination.countryCode = "") →
      (cpWireRatesScenario accountID req).destination
        = { domestic :=
              some { postalCode := normalizePostalCode req.destination.postalCode } })
    ∧ (req.destination.countryCode = "US" →
      (cpWireRatesScenario accountID req).destination
        = { unitedStates := some { zipCode := "US" } })
    ∧ (req.destination.countryCode ≠ "CA" → req.destination.countryCode ≠ "" →
        req.destination.countryCode ≠ "US" →
      (cpWireRatesScenario accountID req).destination
        = { international :=
              some { countryCode := req.destination.countryCode } }) := by
  have hdest : (cpWireRatesScenario accountID req).destination
      = scenarioDestination (quoteDestination req.destination) := by
    unfold cpWireRatesScenario ratesRequestToScenario
    rw [quoteToRatesRequest_destination]
  refine ⟨?_, ?_, ?_⟩
  · intro h
    rw [hdest]
    rcases h with h | h <;> simp [quoteDestination, scenarioDestination, h]
  · intro h
    rw [hdest]
    simp [quoteDestination, scenarioDestination, h]
  · intro h1 h2 h3
    rw [hdest]
    simp [quoteDestination, scenarioDestination, h1, h2, h3]

/-- Witness request with a Canadian destination. -/
def wReqCA : QuoteRequest where
  destination := { postalCode := "v6b 2w2", countryCode := "CA" }

/-- Witness request with a U.S. destination. -/
def wReqUS : QuoteRequest where
  destination := { postalCode := "14201", countryCode := "US" }

/-- Witness request with a French destination. -/
def wReqFR : QuoteRequest where
  destination := { countryCode := "FR" }

theorem canadapost_destination_variant_witness :
    (cpWireRatesScenario "c1" wReqCA).destination
      = { domestic := some { postalCode := "V6B2W2" } }
    ∧ (cpWireRatesScenario "c1" wReqUS).destination
      = { unitedStates := some { zipCode := "US" } }
    ∧ (cpWireRatesScenario "c1" wReqFR).destination
      = { international := some { countryCode := "FR" } } :=
  ⟨(canadapost_destination_variant "c1" wReqCA).1 (Or.inl rfl),
   (canadapost_destination_variant "c1" wReqUS).2.1 rfl,
   (canadapost_destination_variant "c1" wReqFR).2.2 (by decide) (by decide)
     (by decide)⟩

/-- The request of the counterexample: an empty destination country
code. -/
def cxReqBlank : QuoteRequest where
  destination := { postalCode := "h0h 0h0", countryCode := "" }

/-- C8 as literally stated fails: an empty destination country code is
not `"CA"`, yet the wire rate request carries the domestic variant, not a
non-domestic one. -/
theorem canadapost_destination_claim_counterexample :
    cxReqBlank.destination.countryCode ≠ "CA"
    ∧ (cpWireRatesScenario "c1" cxReqBlank).destination.domestic
        = some { postalCode := "H0H0H0" }
    ∧ (cpWireRatesScenario "c1" cxReqBlank).destination.unitedStates = none
    ∧ (cpWireRatesScenario "c1" cxReqBlank).destination.international = none := by
  refine ⟨by decide, rfl, rfl, rfl⟩

/-- Wire `priceTaxes` (`gst`/`pst`/`hst` components). -/
structure CPPriceTaxes where
  gst : Rat := 0
  pst : Rat := 0
  hst : Rat := 0
  deriving Repr, DecidableEq

/-- Wire `adjustment`. -/
structure CPAdjustment where
  adjustmentCode : String
  adjustmentCost : Rat
  deriving Repr, DecidableEq

/-- Wire `priceDetails`. -/
structure CPPriceDetails where
  base : Rat := 0
  taxes : CPPriceTaxes := {}
  due : Rat := 0
  adjustments : List CPAdjustment := []
  deriving Repr, DecidableEq

/-- Wire `serviceLink`. -/
structure CPServiceLink where
  serviceName : String := ""
  href : String := ""
  deriving Repr, DecidableEq

/-- Wire `serviceStandard`. -/
structure CPServiceStandard where
  amDelivery : Bool := false
  guaranteedDelivery : Bool := false
  expectedTransitTime : Int := 0
  expectedDeliveryDate : String := ""
  deriving Repr, DecidableEq

/-- Wire `priceQuote`. -/
structure CPPriceQuote where
  serviceCode : String := ""
  serviceLink : CPServiceLink := {}
  priceDetails : CPPriceDetails := {}
  serviceStandard : CPServiceStandard := {}
  deriving Repr, DecidableEq

/-- Wire `priceQuotes` (the XML rate response body). -/
structure CPPriceQuotes where
  priceQuote : List CPPriceQuote := []
  deriving Repr, DecidableEq

/-- The fuel-surcharge scan in `convertRatesResponse`: first adjustment
with code `"FUELSC"` wins (the source loop breaks). -/
def cpFuelFromAdjustments : List CPAdjustment → Rat
  | [] => 0
  | adj :: rest =>
    if adj.adjustmentCode = "FUELSC" then adj.adjustmentCost
    else cpFuelFromAdjustments rest

/-- The per-quote body of `convertRatesResponse`: base and total are
copied from the wire `base`/`due` fields, taxes are the summed
gst+pst+hst components, the fuel surcharge comes from the adjustment
scan. -/
def cpPriceQuoteToRate (q : CPPriceQuote) : CPRate :=
  { serviceCode := q.serviceCode
    serviceName := q.serviceLink.serviceName
    baseRate := q.priceDetails.base
    fuelSurcharge := cpFuelFromAdjustments q.priceDetails.adjustments
    taxes := q.priceDetails.taxes.gst + q.priceDetails.taxes.pst
              + q.priceDetails.taxes.hst
    totalPrice := q.priceDetails.due
    expectedTransit := q.serviceStandard.expectedTransitTime
    expectedDelivery := q.serviceStandard.expectedDeliveryDate
    guaranteedDelivery := q.serviceStandard.guaranteedDelivery }

/-- `HTTPAPIClient.convertRatesResponse`; `now` is the
`time.Now().UnixNano()` tick used to mint the quote id. -/
def convertRatesResponse (now : Nat) (quotes : CPPriceQuotes) :
    CPRatesResponse :=
  { quoteID := "cp-quote-" ++ toString now
    rates := quotes.priceQuote.map cpPriceQuoteToRate }

/-- `generateRateID`; `nowStamp` is the `time.Now().Format(...)`
timestamp string. -/
def generateRateID (nowStamp : String) (serviceCode : String) : String :=
  "cp-" ++ serviceCode ++ "-" ++ nowStamp

/-- Canada Post `mapServiceType`. -/
def cpMapServiceType (code : String) : String :=
  match code with
  | "DOM.RP" => "standard"
  | "DOM.XP" => "express"
  | "DOM.PC" => "priority"
  | "DOM.EP" => "express"
  | _ => "standard"

/-- The per-rate body of the Canada Post `ratesResponseToShipper` loop:
all four money components are copied verbatim from the API-layer rate,
in CAD. -/
def cpRateToOption (now : Int) (nowStamp : String) (r : CPRate) : RateOption :=
  { rateID := generateRateID nowStamp r.serviceCode
    carrier := "canadapost"
    serviceCode := r.serviceCode
    serviceName := r.serviceName
    serviceType := cpMapServiceType r.serviceCode
    baseRate := { amount := r.baseRate, currency := "CAD" }
    fuelSurcharge := { amount := r.fuelSurcharge, currency := "CAD" }
    taxes := { amount := r.taxes, currency := "CAD" }
    totalPrice := { amount := r.totalPrice, currency := "CAD" }
    transitDays := r.expectedTransit
    estimatedDelivery :=
      if r.expectedDelivery = "" then none
      else some (strTicks r.expectedDelivery)
    expiresAt := now + thirtyMinutesNs
    guaranteed := r.guaranteedDelivery }

/-- Canada Post `ratesResponseToShipper`. -/
def cpRatesResponseToShipper (now : Int) (nowStamp : String)
    (resp : CPRatesResponse) : QuoteResponse :=
  { quoteID := resp.quoteID
    rates := resp.rates.map (cpRateToOption now nowStamp)
    expiresAt := now + thirtyMinutesNs }

/-- `Client.GetQuote` for Canada Post, parameterized by the bound
transport (`APIClient.GetRates`): build the API request from the quote
request, call the transport, translate the response; a transport error is
returned unchanged. -/
def cpGetQuote (api : CPRatesRequest → Except GoErr CPRatesResponse)
    (accountID : String) (now : Int) (nowStamp : String)
    (req : QuoteRequest) : Except GoErr QuoteResponse :=
  match api (quoteToRatesRequest accountID req) with
  | .error e => .error e
  | .ok resp => .ok (cpRatesResponseToShipper now nowStamp resp)

/-- C10: the Canada Post adapter sends only the first package's weight
and dimensions; two quote requests agreeing on origin, destination and
first package produce the same API request and, over any transport, the
same quote. -/
theorem canadapost_first_package_only
    (api : CPRatesRequest → Except GoErr CPRatesResponse)
    (accountID : String) (now : Int) (nowStamp : String)
    (r₁ r₂ : QuoteRequest)
    (horig : r₁.origin = r₂.origin)
    (hdest : r₁.destination = r₂.destination)
    (hhead : r₁.packages.head? = r₂.packages.head?)
    (_hne : r₁.packages ≠ []) :
    quoteToRatesRequest accountID r₁ = quoteToRatesRequest accountID r₂
    ∧ cpGetQuote api accountID now nowStamp r₁
        = cpGetQuote api accountID now nowStamp r₂ := by
  have hreq : quoteToRatesRequest accountID r₁ = quoteToRatesRequest accountID r₂ := by
    unfold quoteToRatesRequest
    rw [horig, hdest, hhead]
  refine ⟨hreq, ?_⟩
  unfold cpGetQuote
  rw [hreq]

/-- Witness request: one package. -/
def wReqOnePkg : QuoteRequest where
  origin := { postalCode := "M5V 1A1", countryCode := "CA" }
  destination := { postalCode := "V6B 2W2", countryCode := "CA" }
  packages := [{ length := 10, width := 11, height := 12, weight := 5 }]

/-- The extra package appended in the two-package witness request. -/
def wPkgExtra : Package :=
  { length := 99, width := 98, height := 97, weight := 96 }

/-- Witness request: same origin, destination and first package, plus an
extra second package. -/
def wReqTwoPkg : QuoteRequest where
  origin := { postalCode := "M5V 1A1", countryCode := "CA" }
  destination := { postalCode := "V6B 2W2", countryCode := "CA" }
  packages := [{ length := 10, width := 11, height := 12, weight := 5 }, wPkgExtra]

/-- A concrete transport used by the C10 witness. -/
def wApi : CPRatesRequest → Except GoErr CPRatesResponse := fun rr =>
  .ok { quoteID := "cp-quote-1"
        rates := [{ serviceCode := "DOM.RP", baseRate := rr.weight, totalPrice := rr.weight }] }

theorem canadapost_first_package_only_witness :
    quoteToRatesRequest "c1" wReqOnePkg = quoteToRatesRequest "c1" wReqTwoPkg
    ∧ cpGetQuote wApi "c1" 0 "20240101000000" wReqOnePkg
        = cpGetQuote wApi "c1" 0 "20240101000000" wReqTwoPkg :=
  canadapost_first_package_only wApi "c1" 0 "20240101000000"
    wReqOnePkg wReqTwoPkg rfl rfl rfl (by decide)

/-! ## Remaining live rate conversions (freightcom and purolator)

The freightcom `ratesResponseToShipper` (client file of the freightcom
package) and the purolator `ratesResponseToShipper`
(`pkg/shipper/purolator/client.go`), embedded with the same conventions
as the Canada Post one: money stays `Rat`, stored-only date strings are
embedded via `strTicks`, and `time.Now()` / its formatted stamp are
explicit parameters. -/

/-- Freightcom `mapServiceType`: service-code classification table with
standard fallback. -/
def fcMapServiceType (code : String) : String :=
  match code with
  | "GROUND" | "STANDARD" | "FEDEX_GROUND" | "UPS_GROUND" => "standard"
  | "EXPRESS" | "FEDEX_EXPRESS_SAVER" | "UPS_EXPRESS_SAVER" => "express"
  | "PRIORITY" | "FEDEX_PRIORITY_OVERNIGHT" | "UPS_NEXT_DAY_AIR" => "priority"
  | "OVERNIGHT" | "FEDEX_STANDARD_OVERNIGHT" => "overnight"
  | "ECONOMY" | "FEDEX_ECONOMY" => "economy"
  | "FREIGHT" | "LTL" => "freight"
  | _ => "standard"

/-- The per-rate body of the freightcom `ratesResponseToShipper` loop:
all four money components are copied verbatim from the wire rate, in the
wire currency.  (`time.Parse(time.RFC3339, r.ExpiresAt)` ignores its
error in the source; the stored result is embedded via `strTicks`.) -/
def fcRateToOption (r : FRate) : RateOption :=
  { rateID := r.id
    carrier := "freightcom"
    serviceCode := r.serviceCode
    serviceName := r.serviceName
    serviceType := fcMapServiceType r.serviceCode
    baseRate := { amount := r.baseRate, currency := r.currency }
    fuelSurcharge := { amount := r.fuelSurcharge, currency := r.currency }
    taxes := { amount := r.totalTax, currency := r.currency }
    totalPrice := { amount := r.totalPrice, currency := r.currency }
    transitDays := r.transitDays
    estimatedDelivery :=
      if r.estimatedDelivery = "" then none
      else some (strTicks r.estimatedDelivery)
    expiresAt := strTicks r.expiresAt
    guaranteed := r.guaranteed }

/-- Freightcom `ratesResponseToShipper`: quote id from the request id,
overall expiry from the first rate (zero when there are none). -/
def fcRatesResponseToShipper (resp : FRatesResponse) : QuoteResponse :=
  let rates := resp.rates.map fcRateToOption
  { quoteID := resp.requestID
    rates := rates
    expiresAt :=
      match rates.head? with
      | some r => r.expiresAt
      | none => 0 }

/-- Purolator `generateRateID`; `nowStamp` is the
`time.Now().Format(...)` timestamp string. -/
def puroGenerateRateID (nowStamp : String) (serviceCode : String) : String :=
  "puro-" ++ serviceCode ++ "-" ++ nowStamp

/-- Purolator `mapServiceType`. -/
def puroMapServiceType (code : String) : String :=
  match code with
  | "PurolatorGround" => "standard"
  | "PurolatorExpress" => "express"
  | "PurolatorExpress9AM" | "PurolatorExpress10:30AM" => "overnight"
  | _ => "standard"

/-- The per-rate body of the purolator `ratesResponseToShipper` loop:
all four money components are copied verbatim from the adapter-level
rate, in CAD. -/
def puroRateToOption (now : Int) (nowStamp : String) (r : PShipmentRate) :
    RateOption :=
  { rateID := puroGenerateRateID nowStamp r.serviceCode
    carrier := "purolator"
    serviceCode := r.serviceCode
    serviceName := r.serviceName
    serviceType := puroMapServiceType r.serviceCode
    baseRate := { amount := r.basePrice, currency := "CAD" }
    fuelSurcharge := { amount := r.fuelSurcharge, currency := "CAD" }
    taxes := { amount := r.taxes, currency := "CAD" }
    totalPrice := { amount := r.totalPrice, currency := "CAD" }
    transitDays := r.estimatedTransitDays
    estimatedDelivery :=
      if r.expectedDeliveryDate = "" then none
      else some (strTicks r.expectedDeliveryDate)
    expiresAt := now + thirtyMinutesNs
    guaranteed := r.guaranteedDelivery }

/-- Purolator `ratesResponseToShipper`. -/
def puroRatesResponseToShipper (now : Int) (nowStamp : String)
    (resp : PRatesResponse) : QuoteResponse :=
  { quoteID := resp.quoteID
    rates := resp.shipmentRates.map (puroRateToOption now nowStamp)
    expiresAt := now + thirtyMinutesNs }

/-! ## Mock adapter (`pkg/shipper/mock/client.go`) -/

/-- 5 days in nanosecond ticks. -/
def fiveDaysNs : Int := 432000000000000

/-- 2 days in nanosecond ticks. -/
def twoDaysNs : Int := 172800000000000

/-- The canned standard-rate option of the mock `GetQuote`. -/
def mockRateStandard (name : String) (now : Int) : RateOption :=
  { rateID := name ++ "-rate-standard-" ++ toString now
    carrier := name
    serviceCode := "STANDARD"
    serviceName := name ++ " Standard"
    serviceType := "standard"
    baseRate := { amount := 12.5, currency := "CAD" }
    fuelSurcharge := { amount := 1.5, currency := "CAD" }
    taxes := { amount := 1.82, currency := "CAD" }
    totalPrice := { amount := 15.82, currency := "CAD" }
    transitDays := 5
    estimatedDelivery := some (now + fiveDaysNs)
    expiresAt := now + thirtyMinutesNs
    guaranteed := false }

/-- The canned express-rate option of the mock `GetQuote`. -/
def mockRateExpress (name : String) (now : Int) : RateOption :=
  { rateID := name ++ "-rate-express-" ++ toString now
    carrier := name
    serviceCode := "EXPRESS"
    serviceName := name ++ " Express"
    serviceType := "express"
    baseRate := { amount := 24, currency := "CAD" }
    fuelSurcharge := { amount := 2.5, currency := "CAD" }
    taxes := { amount := 3.45, currency := "CAD" }
    totalPrice := { amount := 29.95, currency := "CAD" }
    transitDays := 2
    estimatedDelivery := some (now + twoDaysNs)
    expiresAt := now + thirtyMinutesNs
    guaranteed := true }

/-- The mock carrier's `GetQuote` (it never fails: the Go method always
returns a nil error), with `now` the `time.Now()` tick. -/
def mockGetQuote (name : String) (now : Int) (_req : QuoteRequest) :
    QuoteResponse :=
  { quoteID := name ++ "-quote-" ++ toString now
    rates := [mockRateStandard name now, mockRateExpress name now]
    expiresAt := now + thirtyMinutesNs }

/-- Whether a rate option's total equals the sum of its components. -/
def rateSumOk (r : RateOption) : Bool :=
  r.totalPrice.amount
    == r.baseRate.amount + r.fuelSurcharge.amount + r.taxes.amount

/-- C7 (amended): every rate option produced by the mock adapter
satisfies total = base + fuel surcharge + taxes exactly, while each of
the three live adapters (Canada Post, freightcom, purolator) copies all
four money components verbatim from the carrier response without
enforcing that identity. -/
theorem rate_money_components_sum (name : String) (now : Int)
    (req : QuoteRequest) :
    ((mockGetQuote name now req).rates.all rateSumOk) = true
    ∧ (∀ (cnow : Int) (nowStamp : String) (resp : CPRatesResponse),
        ((cpRatesResponseToShipper cnow nowStamp resp).rates.map
            (fun r => r.totalPrice.amount) = resp.rates.map CPRate.totalPrice)
        ∧ ((cpRatesResponseToShipper cnow nowStamp resp).rates.map
            (fun r => r.baseRate.amount) = resp.rates.map CPRate.baseRate)
        ∧ ((cpRatesResponseToShipper cnow nowStamp resp).rates.map
            (fun r => r.fuelSurcharge.amount) = resp.rates.map CPRate.fuelSurcharge)
        ∧ ((cpRatesResponseToShipper cnow nowStamp resp).rates.map
            (fun r => r.taxes.amount) = resp.rates.map CPRate.taxes))
    ∧ (∀ resp : FRatesResponse,
        ((fcRatesResponseToShipper resp).rates.map
            (fun r => r.totalPrice.amount) = resp.rates.map FRate.totalPrice)
        ∧ ((fcRatesResponseToShipper resp).rates.map
            (fun r => r.baseRate.amount) = resp.rates.map FRate.baseRate)
        ∧ ((fcRatesResponseToShipper resp).rates.map
            (fun r => r.fuelSurcharge.amount) = resp.rates.map FRate.fuelSurcharge)
        ∧ ((fcRatesResponseToShipper resp).rates.map
            (fun r => r.taxes.amount) = resp.rates.map FRate.totalTax))
    ∧ (∀ (pnow : Int) (pStamp : String) (resp : PRatesResponse),
        ((puroRatesResponseToShipper pnow pStamp resp).rates.map
            (fun r => r.totalPrice.amount)
          = resp.shipmentRates.map PShipmentRate.totalPrice)
        ∧ ((puroRatesResponseToShipper pnow pStamp resp).rates.map
            (fun r => r.baseRate.amount)
          = resp.shipmentRates.map PShipmentRate.basePrice)
        ∧ ((puroRatesResponseToShipper pnow pStamp resp).rates.map
            (fun r => r.fuelSurcharge.amount)
          = resp.shipmentRates.map PShipmentRate.fuelSurcharge)
        ∧ ((puroRatesResponseToShipper pnow pStamp resp).rates.map
            (fun r => r.taxes.amount)
          = resp.shipmentRates.map PShipmentRate.taxes)) := by
  refine ⟨?_, ?_, ?_, ?_⟩
  · simp only [mockGetQuote, mockRateStandard, mockRateExpress, rateSumOk,
      List.all_cons, List.all_nil, Bool.and_true, Bool.and_eq_true, beq_iff_eq]
    norm_num
  · intro cnow nowStamp resp
    refine ⟨?_, ?_, ?_, ?_⟩ <;>
      · show List.map _ (List.map (cpRateToOption cnow nowStamp) resp.rates) = _
        rw [List.map_map]
        rfl
  · intro resp
    refine ⟨?_, ?_, ?_, ?_⟩ <;>
      · show List.map _ (List.map fcRateToOption resp.rates) = _
        rw [List.map_map]
        rfl
  · intro pnow pStamp resp
    refine ⟨?_, ?_, ?_, ?_⟩ <;>
      · show List.map _ (List.map (puroRateToOption pnow pStamp) resp.shipmentRates) = _
        rw [List.map_map]
        rfl

/-- The wire response of the counterexample: the carrier reports a due
total of 100 against a base of 1 with no adjustments and no taxes. -/
def cxQuotes : CPPriceQuotes :=
  { priceQuote := [{ serviceCode := "DOM.RP", priceDetails := { base := 1, due := 100 } }] }

/-- C7 as literally stated fails: fed a wire response whose carrier-
reported total is not the component sum, the live XML/REST adapter
produces a `RateOption` whose total misses the sum by 99. -/
theorem rate_component_sum_counterexample :
    ((cpRatesResponseToShipper 0 "ts" (convertRatesResponse 0 cxQuotes)).rates.all
        rateSumOk) = false
    ∧ ((cpRatesResponseToShipper 0 "ts" (convertRatesResponse 0 cxQuotes)).rates.map
        (fun r => r.totalPrice.amount
          - (r.baseRate.amount + r.fuelSurcharge.amount + r.taxes.amount)))
      = [99] := by
  constructor
  · simp only [cpRatesResponseToShipper, convertRatesResponse, cxQuotes,
      cpPriceQuoteToRate, cpRateToOption, cpFuelFromAdjustments,
      List.map_cons, List.map_nil, rateSumOk, List.all_cons, List.all_nil,
      Bool.and_true, beq_eq_false_iff_ne]
    norm_num
  · simp only [cpRatesResponseToShipper, convertRatesResponse, cxQuotes,
      cpPriceQuoteToRate, cpRateToOption, cpFuelFromAdjustments,
      List.map_cons, List.map_nil]
    norm_num

end Logistic
